import Mathlib

/-!
Verification of the BreathingDetector firmware (`BreathingDetector_MLX.ino`).

The whole decision logic of the program lives in the Arduino `loop()` function
together with two interrupt routines (`setThreshold`, `setMinimum`) and a set of
global variables.  We embed those globals as a structure `St`, each pass of
`loop()` as a pure function `loopCycle` on `St` (parameterised by the averaged
temperature measurement of the cycle and the quantized clock `millis()/1000`),
and the interrupt routines as functions on `St`.

Modelling conventions:
* `float` temperatures are modelled as `ℚ` (exact arithmetic; the claims are
  stated up to floating-point rounding).
* `long` timestamps are modelled as `ℤ`; the spec assumes the millisecond clock
  never wraps, and all timestamps are the quantized value `millis()/1000`,
  which we pass in as the single `now` of a cycle (all `millis()/1000` reads of
  one `loop()` pass fall within the same few milliseconds, with the `delay`
  calls placed after the last read).
* the `char exhaleCtr` counter is modelled as `ℕ` with its increment reduced
  `% 256` (8-bit wraparound); we prove it in fact never leaves `{0, 1, 2}`.
* `digitalWrite(pin, HIGH/LOW)` is modelled as a `Bool` field per output pin;
  `analogWrite` via the `tempDigital` field.
* The ambient temperature `ambT` is read and echoed to serial/display only; it
  feeds no decision in the program, so it is not part of the model.
* `updateSerial` and the OLED drawing code have no effect on the globals other
  than the two one-shot display flags, which `updateDisplay` consumes; we
  record that consumption as the per-cycle "threshold changed" events.
-/

namespace BreathingDetector

/-- The C cast `(int)x` (and the `float`-to-`long` conversion used by
`map(objT, …)`) truncates toward zero. -/
def cIntCast (q : ℚ) : ℤ :=
  if 0 ≤ q then ⌊q⌋ else ⌈q⌉

/-- Arduino `map(x, in_min, in_max, out_min, out_max)` on `long`s:
`(x - in_min) * (out_max - out_min) / (in_max - in_min) + out_min` with C
truncating division. -/
def arduinoMap (x inMin inMax outMin outMax : ℤ) : ℤ :=
  Int.tdiv ((x - inMin) * (outMax - outMin)) (inMax - inMin) + outMin

/-- The `#define` constants of the sketch that feed the control logic. -/
def TEMP_THRESHOLD : ℚ := 90
def MIN_TEMP : ℚ := 80
def PATIENT_HYST : ℚ := 2
def EXHALE_HYST : ℚ := 1
def ALARM_DELAY_SEC : ℤ := 7
def AO_MIN : ℤ := 70
def AO_MAX : ℤ := 110
def SENSOR_FAULT_CEILING : ℚ := 500

/-- `EXHALE` is `true`, `INHALE` is `false` in the sketch. -/
def EXHALE : Bool := true
def INHALE : Bool := false

/-- The global variables of the sketch that carry state across `loop()`
passes (display/serial-only globals `ambT` excluded, see module comment). -/
structure St where
  objT : ℚ
  tempThreshold : ℚ
  minTemp : ℚ
  state : Bool
  prevState : Bool
  patient : Bool
  alarm : Bool
  thresholdSet : Bool
  minimumSet : Bool
  thresholdSetDisp : Bool
  minimumSetDisp : Bool
  sensorFail : Bool
  stateTime : ℤ
  statePrevTime : ℤ
  bpmTime : ℤ
  bpmPrevTime : ℤ
  bpm : ℚ
  exhaleCtr : ℕ
  tempDigital : ℤ
  exhalePin : Bool
  inhalePin : Bool
  patientPin : Bool
  alarmPin : Bool
  deriving DecidableEq

/-- State after `setup()`, with `t0 = millis()/1000` at the end of `setup`
(the global initializers, then `stateTime = millis()/1000; statePrevTime =
stateTime`).  Output pins start LOW. -/
def initialState (t0 : ℤ) : St :=
  { objT := 0
    tempThreshold := TEMP_THRESHOLD
    minTemp := MIN_TEMP
    state := INHALE
    prevState := INHALE
    patient := false
    alarm := false
    thresholdSet := false
    minimumSet := false
    thresholdSetDisp := false
    minimumSetDisp := false
    sensorFail := false
    stateTime := t0
    statePrevTime := t0
    bpmTime := 0
    bpmPrevTime := 0
    bpm := 0
    exhaleCtr := 0
    tempDigital := 0
    exhalePin := false
    inhalePin := false
    patientPin := false
    alarmPin := false }

/-- INTERRUPT ROUTINE `setThreshold` (button B): set the one-shot flag for
capturing a new exhale threshold, if not already set. -/
def setThreshold (s : St) : St :=
  if s.thresholdSet = false then { s with thresholdSet := true } else s

/-- INTERRUPT ROUTINE `setMinimum` (button C): set the one-shot flag for
capturing a new patient-detector temperature, if not already set. -/
def setMinimum (s : St) : St :=
  if s.minimumSet = false then { s with minimumSet := true } else s

/-- Start of `loop()`: average `MEASURE_AVG` raw readings into `objT` (the
averaged value is the cycle input `m`), then `sensorFail = objT > 500.0`. -/
def senseBlock (s : St) (m : ℚ) : St :=
  { s with objT := m,
           sensorFail := if m > SENSOR_FAULT_CEILING then true else false }

/-- The two "patient absent" branches of `loop()` share this body: clear the
patient/alarm flags, zero `bpm`, and drive all four output pins LOW. -/
def absentReset (s : St) : St :=
  { s with patient := false, alarm := false, bpm := 0,
           exhalePin := false, inhalePin := false,
           patientPin := false, alarmPin := false }

/-- Inside the "patient plausible" branch: if no patient was present, record a
new patient — set all four timestamps to `millis()/1000`, zero the exhale
counter, and raise the patient pin. -/
def newPatientBlock (s : St) (now : ℤ) : St :=
  if s.patient = false then
    { s with patient := true,
             statePrevTime := now, stateTime := now,
             bpmTime := now, bpmPrevTime := now,
             exhaleCtr := 0, patientPin := true }
  else s

/-- The inhale/exhale classifier of `loop()`:
`(objT - EXHALE_HYST) > tempThreshold` while inhaling switches to exhale and
increments `exhaleCtr` (an 8-bit `char`); `objT < tempThreshold` while
exhaling switches back to inhale. -/
def phaseBlock (s : St) : St :=
  if s.objT - EXHALE_HYST > s.tempThreshold ∧ s.state = INHALE then
    { s with exhalePin := true, inhalePin := false, state := EXHALE,
             exhaleCtr := (s.exhaleCtr + 1) % 256 }
  else if s.objT < s.tempThreshold ∧ s.state = EXHALE then
    { s with exhalePin := false, inhalePin := true, state := INHALE }
  else s

/-- The `state != prevState` block of `loop()`: on a phase change clear the
alarm; when `exhaleCtr` has reached 2, recompute `bpm` over the elapsed
seconds since `bpmPrevTime` (guarding a zero delta) and reset the counter;
finally shift the phase timers and `prevState`.  With no phase change, raise
the alarm once `millis()/1000 - statePrevTime` exceeds `ALARM_DELAY_SEC`. -/
def bpmAlarmBlock (s : St) (now : ℤ) : St :=
  if s.state ≠ s.prevState then
    let s1 := { s with alarmPin := false, alarm := false }
    let s2 :=
      if 2 ≤ s1.exhaleCtr then
        let s3 :=
          if now - s1.bpmPrevTime ≠ 0 then
            { s1 with bpmTime := now,
                      bpm := (1 / ((now : ℚ) - (s1.bpmPrevTime : ℚ))) * 120 }
          else
            { s1 with bpmTime := now, bpm := 0 }
        { s3 with exhaleCtr := 0, bpmPrevTime := s3.bpmTime }
      else s1
    { s2 with statePrevTime := s2.stateTime, stateTime := now,
              prevState := s2.state }
  else
    if now - s.statePrevTime > ALARM_DELAY_SEC then
      { s with alarmPin := true, alarm := true }
    else s

/-- End of `loop()`: consume the one-shot calibration flags, capturing the
truncated current measurement as the new threshold and raising the
corresponding display flag. -/
def calibBlock (s : St) : St :=
  let s1 :=
    if s.thresholdSet = true then
      { s with thresholdSetDisp := true,
               tempThreshold := (cIntCast s.objT : ℚ),
               thresholdSet := false }
    else s
  if s1.minimumSet = true then
    { s1 with minimumSetDisp := true,
              minTemp := (cIntCast s1.objT : ℚ),
              minimumSet := false }
  else s1

/-- `updateDisplay()`: consumes the two one-shot display flags (each shows a
"threshold set" screen once).  We return which events were shown this cycle;
the rest of the routine only draws and touches no global. -/
def displayBlock (s : St) : St × Bool × Bool :=
  ({ s with thresholdSetDisp := false, minimumSetDisp := false },
   s.thresholdSetDisp, s.minimumSetDisp)

/-- `updateAO()`: while the sensor is failed drive the analog output with 0,
otherwise with the temperature mapped onto `0..255`. -/
def aoBlock (s : St) : St :=
  if s.sensorFail = true then
    { s with tempDigital := 0 }
  else
    { s with tempDigital := arduinoMap (cIntCast s.objT) AO_MIN AO_MAX 0 255 }

/-- The per-cycle events visible to external collaborators. -/
structure CycleOut where
  thresholdChanged : Bool
  minimumChanged : Bool
  deriving DecidableEq

/-- One pass of `loop()`: sample and fault-check, then either one of the two
"patient absent" branches or the present branch (new-patient reset, phase
classifier, bpm/alarm block), then the calibration consumers, the display and
the analog output. -/
def loopCycle (s : St) (m : ℚ) (now : ℤ) : St × CycleOut :=
  let s0 := senseBlock s m
  let s1 :=
    if s0.objT < s0.minTemp + PATIENT_HYST ∧ s0.patient = false then
      absentReset s0
    else if s0.objT < s0.minTemp - PATIENT_HYST ∧ s0.patient = true then
      absentReset s0
    else
      bpmAlarmBlock (phaseBlock (newPatientBlock s0 now)) now
  let s2 := calibBlock s1
  let sd := displayBlock s2
  (aoBlock sd.1, ⟨sd.2.1, sd.2.2⟩)

/-- States of the program reachable from a reset: the state after `setup()`,
closed under passes of `loop()` (with an arbitrary averaged measurement and
clock value) and under the two button interrupts, which may fire at any point
between cycles. -/
inductive Reachable : St → Prop
  | init (t0 : ℤ) : Reachable (initialState t0)
  | step (s : St) (m : ℚ) (now : ℤ) : Reachable s → Reachable (loopCycle s m now).1
  | btnB (s : St) : Reachable s → Reachable (setThreshold s)
  | btnC (s : St) : Reachable s → Reachable (setMinimum s)

/-- The cycle-boundary invariant of the sketch: the exhale counter is at most
1, `prevState` has been resynchronised with `state`, and while no patient is
present the alarm is clear and `bpm` is zero. -/
def Inv (s : St) : Prop :=
  s.exhaleCtr ≤ 1 ∧ s.prevState = s.state ∧
    (s.patient = false → s.alarm = false ∧ s.bpm = 0)

theorem inv_initial (t0 : ℤ) : Inv (initialState t0) := by
  refine ⟨by simp [initialState], by simp [initialState], fun _ => ?_⟩
  simp [initialState]

/-! ### Projection lemmas: which globals each block of `loop()` leaves alone -/

section ProjectionLemmas

variable (s : St) (m : ℚ) (now : ℤ)

@[simp] theorem senseBlock_objT : (senseBlock s m).objT = m := rfl
@[simp] theorem senseBlock_tempThreshold :
    (senseBlock s m).tempThreshold = s.tempThreshold := rfl
@[simp] theorem senseBlock_minTemp : (senseBlock s m).minTemp = s.minTemp := rfl
@[simp] theorem senseBlock_state : (senseBlock s m).state = s.state := rfl
@[simp] theorem senseBlock_prevState : (senseBlock s m).prevState = s.prevState := rfl
@[simp] theorem senseBlock_patient : (senseBlock s m).patient = s.patient := rfl
@[simp] theorem senseBlock_alarm : (senseBlock s m).alarm = s.alarm := rfl
@[simp] theorem senseBlock_bpm : (senseBlock s m).bpm = s.bpm := rfl
@[simp] theorem senseBlock_exhaleCtr : (senseBlock s m).exhaleCtr = s.exhaleCtr := rfl
@[simp] theorem senseBlock_stateTime : (senseBlock s m).stateTime = s.stateTime := rfl
@[simp] theorem senseBlock_statePrevTime :
    (senseBlock s m).statePrevTime = s.statePrevTime := rfl
@[simp] theorem senseBlock_bpmTime : (senseBlock s m).bpmTime = s.bpmTime := rfl
@[simp] theorem senseBlock_bpmPrevTime :
    (senseBlock s m).bpmPrevTime = s.bpmPrevTime := rfl
@[simp] theorem senseBlock_thresholdSet :
    (senseBlock s m).thresholdSet = s.thresholdSet := rfl
@[simp] theorem senseBlock_minimumSet :
    (senseBlock s m).minimumSet = s.minimumSet := rfl
@[simp] theorem senseBlock_thresholdSetDisp :
    (senseBlock s m).thresholdSetDisp = s.thresholdSetDisp := rfl
@[simp] theorem senseBlock_minimumSetDisp :
    (senseBlock s m).minimumSetDisp = s.minimumSetDisp := rfl
@[simp] theorem senseBlock_exhalePin : (senseBlock s m).exhalePin = s.exhalePin := rfl
@[simp] theorem senseBlock_inhalePin : (senseBlock s m).inhalePin = s.inhalePin := rfl
@[simp] theorem senseBlock_patientPin :
    (senseBlock s m).patientPin = s.patientPin := rfl
@[simp] theorem senseBlock_alarmPin : (senseBlock s m).alarmPin = s.alarmPin := rfl
@[simp] theorem senseBlock_sensorFail :
    (senseBlock s m).sensorFail = if m > SENSOR_FAULT_CEILING then true else false := rfl

@[simp] theorem absentReset_patient : (absentReset s).patient = false := rfl
@[simp] theorem absentReset_alarm : (absentReset s).alarm = false := rfl
@[simp] theorem absentReset_bpm : (absentReset s).bpm = 0 := rfl
@[simp] theorem absentReset_state : (absentReset s).state = s.state := rfl
@[simp] theorem absentReset_prevState : (absentReset s).prevState = s.prevState := rfl
@[simp] theorem absentReset_exhaleCtr : (absentReset s).exhaleCtr = s.exhaleCtr := rfl
@[simp] theorem absentReset_objT : (absentReset s).objT = s.objT := rfl
@[simp] theorem absentReset_tempThreshold :
    (absentReset s).tempThreshold = s.tempThreshold := rfl
@[simp] theorem absentReset_minTemp : (absentReset s).minTemp = s.minTemp := rfl
@[simp] theorem absentReset_stateTime : (absentReset s).stateTime = s.stateTime := rfl
@[simp] theorem absentReset_statePrevTime :
    (absentReset s).statePrevTime = s.statePrevTime := rfl
@[simp] theorem absentReset_bpmTime : (absentReset s).bpmTime = s.bpmTime := rfl
@[simp] theorem absentReset_bpmPrevTime :
    (absentReset s).bpmPrevTime = s.bpmPrevTime := rfl
@[simp] theorem absentReset_thresholdSet :
    (absentReset s).thresholdSet = s.thresholdSet := rfl
@[simp] theorem absentReset_minimumSet :
    (absentReset s).minimumSet = s.minimumSet := rfl
@[simp] theorem absentReset_thresholdSetDisp :
    (absentReset s).thresholdSetDisp = s.thresholdSetDisp := rfl
@[simp] theorem absentReset_minimumSetDisp :
    (absentReset s).minimumSetDisp = s.minimumSetDisp := rfl
@[simp] theorem absentReset_sensorFail : (absentReset s).sensorFail = s.sensorFail := rfl
@[simp] theorem absentReset_exhalePin : (absentReset s).exhalePin = false := rfl
@[simp] theorem absentReset_inhalePin : (absentReset s).inhalePin = false := rfl
@[simp] theorem absentReset_patientPin : (absentReset s).patientPin = false := rfl
@[simp] theorem absentReset_alarmPin : (absentReset s).alarmPin = false := rfl

@[simp] theorem newPatientBlock_patient : (newPatientBlock s now).patient = true := by
  unfold newPatientBlock; split_ifs with h <;> simp_all
@[simp] theorem newPatientBlock_state : (newPatientBlock s now).state = s.state := by
  unfold newPatientBlock; split_ifs <;> rfl
@[simp] theorem newPatientBlock_prevState :
    (newPatientBlock s now).prevState = s.prevState := by
  unfold newPatientBlock; split_ifs <;> rfl
@[simp] theorem newPatientBlock_objT : (newPatientBlock s now).objT = s.objT := by
  unfold newPatientBlock; split_ifs <;> rfl
@[simp] theorem newPatientBlock_tempThreshold :
    (newPatientBlock s now).tempThreshold = s.tempThreshold := by
  unfold newPatientBlock; split_ifs <;> rfl
@[simp] theorem newPatientBlock_minTemp :
    (newPatientBlock s now).minTemp = s.minTemp := by
  unfold newPatientBlock; split_ifs <;> rfl
@[simp] theorem newPatientBlock_alarm : (newPatientBlock s now).alarm = s.alarm := by
  unfold newPatientBlock; split_ifs <;> rfl
@[simp] theorem newPatientBlock_bpm : (newPatientBlock s now).bpm = s.bpm := by
  unfold newPatientBlock; split_ifs <;> rfl
@[simp] theorem newPatientBlock_sensorFail :
    (newPatientBlock s now).sensorFail = s.sensorFail := by
  unfold newPatientBlock; split_ifs <;> rfl
@[simp] theorem newPatientBlock_thresholdSet :
    (newPatientBlock s now).thresholdSet = s.thresholdSet := by
  unfold newPatientBlock; split_ifs <;> rfl
@[simp] theorem newPatientBlock_minimumSet :
    (newPatientBlock s now).minimumSet = s.minimumSet := by
  unfold newPatientBlock; split_ifs <;> rfl
@[simp] theorem newPatientBlock_thresholdSetDisp :
    (newPatientBlock s now).thresholdSetDisp = s.thresholdSetDisp := by
  unfold newPatientBlock; split_ifs <;> rfl
@[simp] theorem newPatientBlock_minimumSetDisp :
    (newPatientBlock s now).minimumSetDisp = s.minimumSetDisp := by
  unfold newPatientBlock; split_ifs <;> rfl
@[simp] theorem newPatientBlock_exhalePin :
    (newPatientBlock s now).exhalePin = s.exhalePin := by
  unfold newPatientBlock; split_ifs <;> rfl
@[simp] theorem newPatientBlock_inhalePin :
    (newPatientBlock s now).inhalePin = s.inhalePin := by
  unfold newPatientBlock; split_ifs <;> rfl
@[simp] theorem newPatientBlock_alarmPin :
    (newPatientBlock s now).alarmPin = s.alarmPin := by
  unfold newPatientBlock; split_ifs <;> rfl

theorem newPatientBlock_of_absent (h : s.patient = false) :
    newPatientBlock s now =
      { s with patient := true, statePrevTime := now, stateTime := now,
               bpmTime := now, bpmPrevTime := now,
               exhaleCtr := 0, patientPin := true } := by
  unfold newPatientBlock; simp [h]

theorem newPatientBlock_of_present (h : s.patient = true) :
    newPatientBlock s now = s := by
  unfold newPatientBlock; simp [h]

@[simp] theorem phaseBlock_patient : (phaseBlock s).patient = s.patient := by
  unfold phaseBlock; split_ifs <;> rfl
@[simp] theorem phaseBlock_prevState : (phaseBlock s).prevState = s.prevState := by
  unfold phaseBlock; split_ifs <;> rfl
@[simp] theorem phaseBlock_objT : (phaseBlock s).objT = s.objT := by
  unfold phaseBlock; split_ifs <;> rfl
@[simp] theorem phaseBlock_tempThreshold :
    (phaseBlock s).tempThreshold = s.tempThreshold := by
  unfold phaseBlock; split_ifs <;> rfl
@[simp] theorem phaseBlock_minTemp : (phaseBlock s).minTemp = s.minTemp := by
  unfold phaseBlock; split_ifs <;> rfl
@[simp] theorem phaseBlock_alarm : (phaseBlock s).alarm = s.alarm := by
  unfold phaseBlock; split_ifs <;> rfl
@[simp] theorem phaseBlock_bpm : (phaseBlock s).bpm = s.bpm := by
  unfold phaseBlock; split_ifs <;> rfl
@[simp] theorem phaseBlock_stateTime : (phaseBlock s).stateTime = s.stateTime := by
  unfold phaseBlock; split_ifs <;> rfl
@[simp] theorem phaseBlock_statePrevTime :
    (phaseBlock s).statePrevTime = s.statePrevTime := by
  unfold phaseBlock; split_ifs <;> rfl
@[simp] theorem phaseBlock_bpmTime : (phaseBlock s).bpmTime = s.bpmTime := by
  unfold phaseBlock; split_ifs <;> rfl
@[simp] theorem phaseBlock_bpmPrevTime :
    (phaseBlock s).bpmPrevTime = s.bpmPrevTime := by
  unfold phaseBlock; split_ifs <;> rfl
@[simp] theorem phaseBlock_sensorFail : (phaseBlock s).sensorFail = s.sensorFail := by
  unfold phaseBlock; split_ifs <;> rfl
@[simp] theorem phaseBlock_thresholdSet :
    (phaseBlock s).thresholdSet = s.thresholdSet := by
  unfold phaseBlock; split_ifs <;> rfl
@[simp] theorem phaseBlock_minimumSet : (phaseBlock s).minimumSet = s.minimumSet := by
  unfold phaseBlock; split_ifs <;> rfl
@[simp] theorem phaseBlock_thresholdSetDisp :
    (phaseBlock s).thresholdSetDisp = s.thresholdSetDisp := by
  unfold phaseBlock; split_ifs <;> rfl
@[simp] theorem phaseBlock_minimumSetDisp :
    (phaseBlock s).minimumSetDisp = s.minimumSetDisp := by
  unfold phaseBlock; split_ifs <;> rfl
@[simp] theorem phaseBlock_patientPin : (phaseBlock s).patientPin = s.patientPin := by
  unfold phaseBlock; split_ifs <;> rfl
@[simp] theorem phaseBlock_alarmPin : (phaseBlock s).alarmPin = s.alarmPin := by
  unfold phaseBlock; split_ifs <;> rfl

@[simp] theorem bpmAlarmBlock_patient : (bpmAlarmBlock s now).patient = s.patient := by
  simp only [bpmAlarmBlock]; split_ifs <;> rfl
@[simp] theorem bpmAlarmBlock_state : (bpmAlarmBlock s now).state = s.state := by
  simp only [bpmAlarmBlock]; split_ifs <;> rfl
@[simp] theorem bpmAlarmBlock_objT : (bpmAlarmBlock s now).objT = s.objT := by
  simp only [bpmAlarmBlock]; split_ifs <;> rfl
@[simp] theorem bpmAlarmBlock_tempThreshold :
    (bpmAlarmBlock s now).tempThreshold = s.tempThreshold := by
  simp only [bpmAlarmBlock]; split_ifs <;> rfl
@[simp] theorem bpmAlarmBlock_minTemp : (bpmAlarmBlock s now).minTemp = s.minTemp := by
  simp only [bpmAlarmBlock]; split_ifs <;> rfl
@[simp] theorem bpmAlarmBlock_sensorFail :
    (bpmAlarmBlock s now).sensorFail = s.sensorFail := by
  simp only [bpmAlarmBlock]; split_ifs <;> rfl
@[simp] theorem bpmAlarmBlock_thresholdSet :
    (bpmAlarmBlock s now).thresholdSet = s.thresholdSet := by
  simp only [bpmAlarmBlock]; split_ifs <;> rfl
@[simp] theorem bpmAlarmBlock_minimumSet :
    (bpmAlarmBlock s now).minimumSet = s.minimumSet := by
  simp only [bpmAlarmBlock]; split_ifs <;> rfl
@[simp] theorem bpmAlarmBlock_thresholdSetDisp :
    (bpmAlarmBlock s now).thresholdSetDisp = s.thresholdSetDisp := by
  simp only [bpmAlarmBlock]; split_ifs <;> rfl
@[simp] theorem bpmAlarmBlock_minimumSetDisp :
    (bpmAlarmBlock s now).minimumSetDisp = s.minimumSetDisp := by
  simp only [bpmAlarmBlock]; split_ifs <;> rfl
@[simp] theorem bpmAlarmBlock_exhalePin :
    (bpmAlarmBlock s now).exhalePin = s.exhalePin := by
  simp only [bpmAlarmBlock]; split_ifs <;> rfl
@[simp] theorem bpmAlarmBlock_inhalePin :
    (bpmAlarmBlock s now).inhalePin = s.inhalePin := by
  simp only [bpmAlarmBlock]; split_ifs <;> rfl
@[simp] theorem bpmAlarmBlock_patientPin :
    (bpmAlarmBlock s now).patientPin = s.patientPin := by
  simp only [bpmAlarmBlock]; split_ifs <;> rfl

@[simp] theorem calibBlock_patient : (calibBlock s).patient = s.patient := by
  simp only [calibBlock]; split_ifs <;> rfl
@[simp] theorem calibBlock_state : (calibBlock s).state = s.state := by
  simp only [calibBlock]; split_ifs <;> rfl
@[simp] theorem calibBlock_prevState : (calibBlock s).prevState = s.prevState := by
  simp only [calibBlock]; split_ifs <;> rfl
@[simp] theorem calibBlock_alarm : (calibBlock s).alarm = s.alarm := by
  simp only [calibBlock]; split_ifs <;> rfl
@[simp] theorem calibBlock_bpm : (calibBlock s).bpm = s.bpm := by
  simp only [calibBlock]; split_ifs <;> rfl
@[simp] theorem calibBlock_exhaleCtr : (calibBlock s).exhaleCtr = s.exhaleCtr := by
  simp only [calibBlock]; split_ifs <;> rfl
@[simp] theorem calibBlock_objT : (calibBlock s).objT = s.objT := by
  simp only [calibBlock]; split_ifs <;> rfl
@[simp] theorem calibBlock_stateTime : (calibBlock s).stateTime = s.stateTime := by
  simp only [calibBlock]; split_ifs <;> rfl
@[simp] theorem calibBlock_statePrevTime :
    (calibBlock s).statePrevTime = s.statePrevTime := by
  simp only [calibBlock]; split_ifs <;> rfl
@[simp] theorem calibBlock_bpmTime : (calibBlock s).bpmTime = s.bpmTime := by
  simp only [calibBlock]; split_ifs <;> rfl
@[simp] theorem calibBlock_bpmPrevTime :
    (calibBlock s).bpmPrevTime = s.bpmPrevTime := by
  simp only [calibBlock]; split_ifs <;> rfl
@[simp] theorem calibBlock_sensorFail : (calibBlock s).sensorFail = s.sensorFail := by
  simp only [calibBlock]; split_ifs <;> rfl
@[simp] theorem calibBlock_exhalePin : (calibBlock s).exhalePin = s.exhalePin := by
  simp only [calibBlock]; split_ifs <;> rfl
@[simp] theorem calibBlock_inhalePin : (calibBlock s).inhalePin = s.inhalePin := by
  simp only [calibBlock]; split_ifs <;> rfl
@[simp] theorem calibBlock_patientPin : (calibBlock s).patientPin = s.patientPin := by
  simp only [calibBlock]; split_ifs <;> rfl
@[simp] theorem calibBlock_alarmPin : (calibBlock s).alarmPin = s.alarmPin := by
  simp only [calibBlock]; split_ifs <;> rfl

@[simp] theorem displayBlock_patient : (displayBlock s).1.patient = s.patient := rfl
@[simp] theorem displayBlock_state : (displayBlock s).1.state = s.state := rfl
@[simp] theorem displayBlock_prevState :
    (displayBlock s).1.prevState = s.prevState := rfl
@[simp] theorem displayBlock_alarm : (displayBlock s).1.alarm = s.alarm := rfl
@[simp] theorem displayBlock_bpm : (displayBlock s).1.bpm = s.bpm := rfl
@[simp] theorem displayBlock_exhaleCtr :
    (displayBlock s).1.exhaleCtr = s.exhaleCtr := rfl
@[simp] theorem displayBlock_objT : (displayBlock s).1.objT = s.objT := rfl
@[simp] theorem displayBlock_tempThreshold :
    (displayBlock s).1.tempThreshold = s.tempThreshold := rfl
@[simp] theorem displayBlock_minTemp : (displayBlock s).1.minTemp = s.minTemp := rfl
@[simp] theorem displayBlock_stateTime :
    (displayBlock s).1.stateTime = s.stateTime := rfl
@[simp] theorem displayBlock_statePrevTime :
    (displayBlock s).1.statePrevTime = s.statePrevTime := rfl
@[simp] theorem displayBlock_bpmTime : (displayBlock s).1.bpmTime = s.bpmTime := rfl
@[simp] theorem displayBlock_bpmPrevTime :
    (displayBlock s).1.bpmPrevTime = s.bpmPrevTime := rfl
@[simp] theorem displayBlock_thresholdSet :
    (displayBlock s).1.thresholdSet = s.thresholdSet := rfl
@[simp] theorem displayBlock_minimumSet :
    (displayBlock s).1.minimumSet = s.minimumSet := rfl
@[simp] theorem displayBlock_thresholdSetDisp :
    (displayBlock s).1.thresholdSetDisp = false := rfl
@[simp] theorem displayBlock_minimumSetDisp :
    (displayBlock s).1.minimumSetDisp = false := rfl
@[simp] theorem displayBlock_sensorFail :
    (displayBlock s).1.sensorFail = s.sensorFail := rfl
@[simp] theorem displayBlock_exhalePin :
    (displayBlock s).1.exhalePin = s.exhalePin := rfl
@[simp] theorem displayBlock_inhalePin :
    (displayBlock s).1.inhalePin = s.inhalePin := rfl
@[simp] theorem displayBlock_patientPin :
    (displayBlock s).1.patientPin = s.patientPin := rfl
@[simp] theorem displayBlock_alarmPin :
    (displayBlock s).1.alarmPin = s.alarmPin := rfl
@[simp] theorem displayBlock_events :
    (displayBlock s).2 = (s.thresholdSetDisp, s.minimumSetDisp) := rfl

@[simp] theorem aoBlock_patient : (aoBlock s).patient = s.patient := by
  unfold aoBlock; split_ifs <;> rfl
@[simp] theorem aoBlock_state : (aoBlock s).state = s.state := by
  unfold aoBlock; split_ifs <;> rfl
@[simp] theorem aoBlock_prevState : (aoBlock s).prevState = s.prevState := by
  unfold aoBlock; split_ifs <;> rfl
@[simp] theorem aoBlock_alarm : (aoBlock s).alarm = s.alarm := by
  unfold aoBlock; split_ifs <;> rfl
@[simp] theorem aoBlock_bpm : (aoBlock s).bpm = s.bpm := by
  unfold aoBlock; split_ifs <;> rfl
@[simp] theorem aoBlock_exhaleCtr : (aoBlock s).exhaleCtr = s.exhaleCtr := by
  unfold aoBlock; split_ifs <;> rfl
@[simp] theorem aoBlock_objT : (aoBlock s).objT = s.objT := by
  unfold aoBlock; split_ifs <;> rfl
@[simp] theorem aoBlock_tempThreshold :
    (aoBlock s).tempThreshold = s.tempThreshold := by
  unfold aoBlock; split_ifs <;> rfl
@[simp] theorem aoBlock_minTemp : (aoBlock s).minTemp = s.minTemp := by
  unfold aoBlock; split_ifs <;> rfl
@[simp] theorem aoBlock_stateTime : (aoBlock s).stateTime = s.stateTime := by
  unfold aoBlock; split_ifs <;> rfl
@[simp] theorem aoBlock_statePrevTime :
    (aoBlock s).statePrevTime = s.statePrevTime := by
  unfold aoBlock; split_ifs <;> rfl
@[simp] theorem aoBlock_bpmTime : (aoBlock s).bpmTime = s.bpmTime := by
  unfold aoBlock; split_ifs <;> rfl
@[simp] theorem aoBlock_bpmPrevTime : (aoBlock s).bpmPrevTime = s.bpmPrevTime := by
  unfold aoBlock; split_ifs <;> rfl
@[simp] theorem aoBlock_thresholdSet :
    (aoBlock s).thresholdSet = s.thresholdSet := by
  unfold aoBlock; split_ifs <;> rfl
@[simp] theorem aoBlock_minimumSet : (aoBlock s).minimumSet = s.minimumSet := by
  unfold aoBlock; split_ifs <;> rfl
@[simp] theorem aoBlock_thresholdSetDisp :
    (aoBlock s).thresholdSetDisp = s.thresholdSetDisp := by
  unfold aoBlock; split_ifs <;> rfl
@[simp] theorem aoBlock_minimumSetDisp :
    (aoBlock s).minimumSetDisp = s.minimumSetDisp := by
  unfold aoBlock; split_ifs <;> rfl
@[simp] theorem aoBlock_sensorFail : (aoBlock s).sensorFail = s.sensorFail := by
  unfold aoBlock; split_ifs <;> rfl
@[simp] theorem aoBlock_exhalePin : (aoBlock s).exhalePin = s.exhalePin := by
  unfold aoBlock; split_ifs <;> rfl
@[simp] theorem aoBlock_inhalePin : (aoBlock s).inhalePin = s.inhalePin := by
  unfold aoBlock; split_ifs <;> rfl
@[simp] theorem aoBlock_patientPin : (aoBlock s).patientPin = s.patientPin := by
  unfold aoBlock; split_ifs <;> rfl
@[simp] theorem aoBlock_alarmPin : (aoBlock s).alarmPin = s.alarmPin := by
  unfold aoBlock; split_ifs <;> rfl

end ProjectionLemmas

/-! ### The cycle-boundary invariant is preserved -/

theorem newPatientBlock_exhaleCtr_le (s : St) (now : ℤ) (h : s.exhaleCtr ≤ 1) :
    (newPatientBlock s now).exhaleCtr ≤ 1 := by
  unfold newPatientBlock; split_ifs <;> simp_all

/-- Through the phase classifier the counter can reach 2, and only on a cycle
that left `state` differing from `prevState`. -/
theorem phaseBlock_inv (t : St) (hp : t.prevState = t.state) (hc : t.exhaleCtr ≤ 1) :
    ((phaseBlock t).state = (phaseBlock t).prevState → (phaseBlock t).exhaleCtr ≤ 1) ∧
      (phaseBlock t).exhaleCtr ≤ 2 := by
  unfold phaseBlock
  split_ifs with h1 h2
  · refine ⟨fun hst => ?_, ?_⟩
    · simp only at hst
      rw [hp, h1.2] at hst
      simp [EXHALE, INHALE] at hst
    · simp only
      calc (t.exhaleCtr + 1) % 256 ≤ t.exhaleCtr + 1 := Nat.mod_le _ _
        _ ≤ 2 := by omega
  · refine ⟨fun hst => ?_, by simpa using hc.trans (by omega)⟩
    · simp only at hst ⊢
      exact hc
  · exact ⟨fun _ => hc, hc.trans (by omega)⟩

/-- Through the transition/bpm/alarm block the counter returns below 2 and
`prevState` is resynchronised with `state`. -/
theorem bpmAlarmBlock_inv (u : St) (now : ℤ)
    (h1 : u.state = u.prevState → u.exhaleCtr ≤ 1) (h2 : u.exhaleCtr ≤ 2) :
    (bpmAlarmBlock u now).exhaleCtr ≤ 1 ∧
      (bpmAlarmBlock u now).prevState = (bpmAlarmBlock u now).state := by
  simp only [bpmAlarmBlock]
  split_ifs with ht hc hz <;> simp_all <;> omega

theorem inv_loopCycle (s : St) (m : ℚ) (now : ℤ) (h : Inv s) :
    Inv (loopCycle s m now).1 := by
  obtain ⟨hctr, hprev, habs⟩ := h
  simp only [loopCycle]
  split_ifs with h1 h2
  · exact ⟨by simp [hctr], by simp [hprev], fun _ => by simp⟩
  · exact ⟨by simp [hctr], by simp [hprev], fun _ => by simp⟩
  · set t := newPatientBlock (senseBlock s m) now with hdef
    have hp : t.prevState = t.state := by simp [hdef, hprev]
    have hc : t.exhaleCtr ≤ 1 :=
      newPatientBlock_exhaleCtr_le _ _ (by simpa using hctr)
    obtain ⟨hu1, hu2⟩ := phaseBlock_inv t hp hc
    obtain ⟨hv1, hv2⟩ := bpmAlarmBlock_inv (phaseBlock t) now hu1 hu2
    refine ⟨by simpa using hv1, by simpa using hv2, fun hpat => ?_⟩
    exfalso
    simpa [hdef] using hpat

theorem inv_setThreshold (s : St) (h : Inv s) : Inv (setThreshold s) := by
  obtain ⟨hctr, hprev, habs⟩ := h
  unfold setThreshold
  split_ifs <;> exact ⟨by simpa using hctr, by simpa using hprev,
    fun hp => by simp_all⟩

theorem inv_setMinimum (s : St) (h : Inv s) : Inv (setMinimum s) := by
  obtain ⟨hctr, hprev, habs⟩ := h
  unfold setMinimum
  split_ifs <;> exact ⟨by simpa using hctr, by simpa using hprev,
    fun hp => by simp_all⟩

/-- Every reachable state satisfies the cycle-boundary invariant. -/
theorem inv_reachable (s : St) (h : Reachable s) : Inv s := by
  induction h with
  | init t0 => exact inv_initial t0
  | step s m now _ ih => exact inv_loopCycle s m now ih
  | btnB s _ ih => exact inv_setThreshold s ih
  | btnC s _ ih => exact inv_setMinimum s ih

/-! ### Branch characterizations of the interesting blocks -/

theorem phaseBlock_toExhale (t : St)
    (h1 : t.objT - EXHALE_HYST > t.tempThreshold) (h2 : t.state = INHALE) :
    phaseBlock t =
      { t with exhalePin := true, inhalePin := false, state := EXHALE,
               exhaleCtr := (t.exhaleCtr + 1) % 256 } := by
  unfold phaseBlock
  rw [if_pos ⟨h1, h2⟩]

theorem phaseBlock_toInhale (t : St)
    (h1 : t.objT < t.tempThreshold) (h2 : t.state = EXHALE) :
    phaseBlock t =
      { t with exhalePin := false, inhalePin := true, state := INHALE } := by
  unfold phaseBlock
  rw [if_neg, if_pos ⟨h1, h2⟩]
  simp [h2, EXHALE, INHALE]

theorem phaseBlock_id (t : St)
    (h1 : ¬(t.objT - EXHALE_HYST > t.tempThreshold ∧ t.state = INHALE))
    (h2 : ¬(t.objT < t.tempThreshold ∧ t.state = EXHALE)) :
    phaseBlock t = t := by
  unfold phaseBlock
  rw [if_neg h1, if_neg h2]

theorem bpmAlarmBlock_transition_compute (u : St) (now : ℤ)
    (ht : u.state ≠ u.prevState) (hc : 2 ≤ u.exhaleCtr)
    (hz : now - u.bpmPrevTime ≠ 0) :
    bpmAlarmBlock u now =
      { u with alarmPin := false, alarm := false, bpmTime := now,
               bpm := (1 / ((now : ℚ) - (u.bpmPrevTime : ℚ))) * 120,
               exhaleCtr := 0, bpmPrevTime := now,
               statePrevTime := u.stateTime, stateTime := now,
               prevState := u.state } := by
  simp only [bpmAlarmBlock]
  split_ifs <;> simp_all

theorem bpmAlarmBlock_transition_zeroDelta (u : St) (now : ℤ)
    (ht : u.state ≠ u.prevState) (hc : 2 ≤ u.exhaleCtr)
    (hz : now - u.bpmPrevTime = 0) :
    bpmAlarmBlock u now =
      { u with alarmPin := false, alarm := false, bpmTime := now,
               bpm := 0, exhaleCtr := 0, bpmPrevTime := now,
               statePrevTime := u.stateTime, stateTime := now,
               prevState := u.state } := by
  simp only [bpmAlarmBlock]
  split_ifs <;> simp_all

theorem bpmAlarmBlock_transition_small (u : St) (now : ℤ)
    (ht : u.state ≠ u.prevState) (hc : u.exhaleCtr < 2) :
    bpmAlarmBlock u now =
      { u with alarmPin := false, alarm := false,
               statePrevTime := u.stateTime, stateTime := now,
               prevState := u.state } := by
  simp only [bpmAlarmBlock]
  split_ifs <;> first | rfl | (exfalso; omega) | simp_all

theorem bpmAlarmBlock_steady (u : St) (now : ℤ) (ht : u.state = u.prevState) :
    bpmAlarmBlock u now =
      (if now - u.statePrevTime > ALARM_DELAY_SEC then
        { u with alarmPin := true, alarm := true }
      else u) := by
  simp only [bpmAlarmBlock]
  split_ifs <;> simp_all

theorem calibBlock_consume (s : St) (h : s.thresholdSet = true) :
    (calibBlock s).tempThreshold = (cIntCast s.objT : ℚ) ∧
      (calibBlock s).thresholdSet = false ∧
      (calibBlock s).thresholdSetDisp = true := by
  simp only [calibBlock]
  split_ifs <;> simp_all

theorem calibBlock_skip (s : St) (h : s.thresholdSet = false) :
    (calibBlock s).tempThreshold = s.tempThreshold ∧
      (calibBlock s).thresholdSet = false ∧
      (calibBlock s).thresholdSetDisp = s.thresholdSetDisp := by
  simp only [calibBlock]
  split_ifs <;> simp_all

theorem aoBlock_fault (s : St) (h : s.sensorFail = true) :
    (aoBlock s).tempDigital = 0 := by
  unfold aoBlock
  split_ifs <;> simp_all

/-! ### A concrete run used as witness/counterexample material

From a fresh boot at second 0: a patient appears at second 0 with a reading
of 85 °F, exhales at second 2 (reading 95), inhales back at second 3
(reading 85).  These states are reachable by construction. -/

def runA : St := (loopCycle (initialState 0) 85 0).1
def runB : St := (loopCycle runA 95 2).1
def runC : St := (loopCycle runB 85 3).1

theorem runA_reachable : Reachable runA :=
  Reachable.step _ 85 0 (Reachable.init 0)

theorem runB_reachable : Reachable runB :=
  Reachable.step _ 95 2 runA_reachable

theorem runC_reachable : Reachable runC :=
  Reachable.step _ 85 3 runB_reachable

/-! ### The claims -/

/-- C5: for every cycle whose averaged measurement lies inside the presence
dead zone `[presenceThreshold - presenceHysteresis, presenceThreshold +
presenceHysteresis)`, the presence flag at the end of the cycle equals its
value at the start of the cycle, whatever that prior value was. -/
theorem presence_dead_zone (s : St) (m : ℚ) (now : ℤ)
    (h1 : s.minTemp - PATIENT_HYST ≤ m) (h2 : m < s.minTemp + PATIENT_HYST) :
    (loopCycle s m now).1.patient = s.patient := by
  simp only [loopCycle]
  split_ifs with ha hb
  · have := ha.2
    simp only [senseBlock_patient] at this
    simp [this]
  · have := hb.1
    simp only [senseBlock_objT, senseBlock_minTemp] at this
    exact absurd this (not_lt.mpr h1)
  · have hp : s.patient = true := by
      cases hpc : s.patient
      · exact absurd ⟨by simpa using h2, by simpa using hpc⟩ ha
      · rfl
    simp [hp]

/-- C5 witness: with the default thresholds, a reading of 80 °F (inside the
dead zone `[78, 82)`) leaves the fresh boot state absent. -/
theorem presence_dead_zone_witness :
    (loopCycle (initialState 0) 80 0).1.patient = (initialState 0).patient :=
  presence_dead_zone (initialState 0) 80 0
    (by norm_num [initialState, MIN_TEMP, PATIENT_HYST])
    (by norm_num [initialState, MIN_TEMP, PATIENT_HYST])

/-- C7: in every BPM computation (a phase transition with the exhale counter
at 2) whose elapsed quantized time is zero, `bpm` is set to 0; the embedded
computation is total, so no division by zero occurs. -/
theorem bpm_zero_elapsed_guard (u : St) (now : ℤ)
    (ht : u.state ≠ u.prevState) (hc : 2 ≤ u.exhaleCtr)
    (hz : now - u.bpmPrevTime = 0) :
    (bpmAlarmBlock u now).bpm = 0 ∧ (bpmAlarmBlock u now).bpmTime = now ∧
      (bpmAlarmBlock u now).bpmPrevTime = now ∧
      (bpmAlarmBlock u now).exhaleCtr = 0 := by
  rw [bpmAlarmBlock_transition_zeroDelta u now ht hc hz]
  exact ⟨rfl, rfl, rfl, rfl⟩

/-- A mid-cycle state for exercising the zero-elapsed guard: an
Inhale→Exhale transition whose second exhale-start falls in the same
quantized second as the previous BPM reference time. -/
def zeroDeltaState : St :=
  { initialState 0 with state := true, prevState := false,
                        exhaleCtr := 2, bpmTime := 5, bpmPrevTime := 5 }

/-- C7 witness: the guard at a concrete state with `now = bpmPrevTime = 5`. -/
theorem bpm_zero_elapsed_guard_witness :
    (bpmAlarmBlock zeroDeltaState 5).bpm = 0 ∧
      (bpmAlarmBlock zeroDeltaState 5).bpmTime = 5 ∧
      (bpmAlarmBlock zeroDeltaState 5).bpmPrevTime = 5 ∧
      (bpmAlarmBlock zeroDeltaState 5).exhaleCtr = 0 :=
  bpm_zero_elapsed_guard zeroDeltaState 5
    (by simp [zeroDeltaState, initialState])
    (by simp [zeroDeltaState, initialState])
    (by decide)

/-- C9: a cycle that ends with no patient (steady absent or a
present-to-absent exit) leaves `state` and `prevState` untouched, so a later
session resumes phase classification from the phase the previous session
ended in. -/
theorem absent_preserves_phase (s : St) (m : ℚ) (now : ℤ)
    (h : (m < s.minTemp + PATIENT_HYST ∧ s.patient = false) ∨
         (m < s.minTemp - PATIENT_HYST ∧ s.patient = true)) :
    (loopCycle s m now).1.patient = false ∧
      (loopCycle s m now).1.state = s.state ∧
      (loopCycle s m now).1.prevState = s.prevState := by
  simp only [loopCycle]
  split_ifs with ha hb
  · simp
  · simp
  · exfalso
    rcases h with h | h
    · exact ha (by simpa using h)
    · exact hb (by simpa using h)

/-- C9 witness: a cold reading on the fresh boot state ends absent with the
phase variables untouched. -/
theorem absent_preserves_phase_witness :
    (loopCycle (initialState 0) 70 0).1.patient = false ∧
      (loopCycle (initialState 0) 70 0).1.state = (initialState 0).state ∧
      (loopCycle (initialState 0) 70 0).1.prevState =
        (initialState 0).prevState :=
  absent_preserves_phase (initialState 0) 70 0
    (Or.inl ⟨by norm_num [initialState, MIN_TEMP, PATIENT_HYST],
             by norm_num [initialState]⟩)

/-- C10: in every reachable state the exhale counter is at most 1 at a cycle
boundary; within a cycle it can reach at most 2 (just after the phase
classifier), and it is back at `≤ 1` at the end of the cycle — so the 8-bit
counter cannot overflow. -/
theorem exhale_counter_bounded (s : St) (hr : Reachable s) :
    s.exhaleCtr ≤ 1 ∧
      ∀ (m : ℚ) (now : ℤ),
        (phaseBlock (newPatientBlock (senseBlock s m) now)).exhaleCtr ≤ 2 ∧
          (loopCycle s m now).1.exhaleCtr ≤ 1 := by
  have hinv := inv_reachable s hr
  obtain ⟨hc, hp, -⟩ := id hinv
  refine ⟨hc, fun m now => ⟨?_, (inv_loopCycle s m now hinv).1⟩⟩
  exact (phaseBlock_inv _ (by simp [hp])
    (newPatientBlock_exhaleCtr_le _ _ (by simpa using hc))).2

/-- C10 witness: the bounds instantiated at the boot state with a hot
reading at second 0. -/
theorem exhale_counter_bounded_witness :
    (initialState 0).exhaleCtr ≤ 1 ∧
      (phaseBlock (newPatientBlock (senseBlock (initialState 0) 95) 0)).exhaleCtr ≤ 2 ∧
      (loopCycle (initialState 0) 95 0).1.exhaleCtr ≤ 1 :=
  ⟨(exhale_counter_bounded (initialState 0) (Reachable.init 0)).1,
   ((exhale_counter_bounded (initialState 0) (Reachable.init 0)).2 95 0).1,
   ((exhale_counter_bounded (initialState 0) (Reachable.init 0)).2 95 0).2⟩

/-- On any cycle that records a phase transition, the alarm is cleared and
the phase timers shift: `statePrevTime` receives the start time of the phase
that just ended, `stateTime` the current second. -/
theorem bpmAlarmBlock_transition_alarm (u : St) (now : ℤ)
    (ht : u.state ≠ u.prevState) :
    (bpmAlarmBlock u now).alarm = false ∧
      (bpmAlarmBlock u now).statePrevTime = u.stateTime ∧
      (bpmAlarmBlock u now).stateTime = now := by
  simp only [bpmAlarmBlock]
  split_ifs <;> simp_all

/-- Facts about the trace state `runC` (patient present, inhaling, one
exhale counted, BPM reference time 0). -/
theorem runC_fields :
    runC.patient = true ∧ runC.state = false ∧ runC.prevState = false ∧
      runC.exhaleCtr = 1 ∧ runC.bpmPrevTime = 0 ∧ runC.minTemp = 80 ∧
      runC.tempThreshold = 90 := by
  norm_num [runC, runB, runA, loopCycle, senseBlock, absentReset,
    newPatientBlock, phaseBlock, bpmAlarmBlock, calibBlock, displayBlock,
    aoBlock, initialState, MIN_TEMP, PATIENT_HYST, TEMP_THRESHOLD,
    EXHALE_HYST, ALARM_DELAY_SEC, EXHALE, INHALE, SENSOR_FAULT_CEILING]

/-- C8: while a patient is present and the phase is Inhale, a measurement
with `m - phaseHysteresis > phaseThreshold` switches the phase to Exhale,
asserts the Exhale output, deasserts the Inhale output, and increments the
exhale counter by exactly 1; the phase and the two outputs still hold at the
end of the cycle. -/
theorem inhale_to_exhale_transition (s : St) (m : ℚ) (now : ℤ)
    (hr : Reachable s) (hpat : s.patient = true)
    (hstay : ¬ m < s.minTemp - PATIENT_HYST)
    (hst : s.state = INHALE) (hcond : m - EXHALE_HYST > s.tempThreshold) :
    (phaseBlock (newPatientBlock (senseBlock s m) now)).state = EXHALE ∧
      (phaseBlock (newPatientBlock (senseBlock s m) now)).exhalePin = true ∧
      (phaseBlock (newPatientBlock (senseBlock s m) now)).inhalePin = false ∧
      (phaseBlock (newPatientBlock (senseBlock s m) now)).exhaleCtr =
        s.exhaleCtr + 1 ∧
      (loopCycle s m now).1.state = EXHALE ∧
      (loopCycle s m now).1.exhalePin = true ∧
      (loopCycle s m now).1.inhalePin = false := by
  obtain ⟨hc, hpv, -⟩ := inv_reachable s hr
  have hnp := newPatientBlock_of_present (senseBlock s m) now (by simpa using hpat)
  have hph := phaseBlock_toExhale (senseBlock s m)
    (by simpa using hcond) (by simpa using hst)
  have hmod : (s.exhaleCtr + 1) % 256 = s.exhaleCtr + 1 :=
    Nat.mod_eq_of_lt (by omega)
  refine ⟨?_, ?_, ?_, ?_, ?_, ?_, ?_⟩
  · rw [hnp, hph]
  · rw [hnp, hph]
  · rw [hnp, hph]
  · rw [hnp, hph]; simpa using hmod
  all_goals
    simp only [loopCycle]
    split_ifs with ha hb
    · exact absurd ha.2 (by simp [hpat])
    · exact absurd hb.1 (by simpa using hstay)
    · rw [hnp, hph]; simp
  done

/-- C8 witness: at the reachable trace state `runC` (present, inhaling), a
reading of 95 at second 8 produces exactly this transition. -/
theorem inhale_to_exhale_transition_witness :
    (phaseBlock (newPatientBlock (senseBlock runC 95) 8)).state = EXHALE ∧
      (phaseBlock (newPatientBlock (senseBlock runC 95) 8)).exhalePin = true ∧
      (phaseBlock (newPatientBlock (senseBlock runC 95) 8)).inhalePin = false ∧
      (phaseBlock (newPatientBlock (senseBlock runC 95) 8)).exhaleCtr =
        runC.exhaleCtr + 1 ∧
      (loopCycle runC 95 8).1.state = EXHALE ∧
      (loopCycle runC 95 8).1.exhalePin = true ∧
      (loopCycle runC 95 8).1.inhalePin = false :=
  inhale_to_exhale_transition runC 95 8 runC_reachable runC_fields.1
    (by rw [runC_fields.2.2.2.2.2.1]; norm_num [PATIENT_HYST])
    runC_fields.2.1
    (by rw [runC_fields.2.2.2.2.2.2]; norm_num [EXHALE_HYST])

/-- After a new-patient reset (all four timers at `now`, counter 0, alarm
and bpm clear, `prevState = state`), the remainder of the present branch
leaves the alarm clear, the bpm at 0 and all four timers at `now`, whatever
the phase classifier does this cycle. -/
theorem freshTimers_cycle_tail (t : St) (now : ℤ)
    (h1 : t.stateTime = now) (h2 : t.statePrevTime = now)
    (h3 : t.bpmTime = now) (h4 : t.bpmPrevTime = now)
    (h5 : t.exhaleCtr = 0) (h6 : t.alarm = false) (h7 : t.bpm = 0)
    (h8 : t.prevState = t.state) :
    (bpmAlarmBlock (phaseBlock t) now).alarm = false ∧
      (bpmAlarmBlock (phaseBlock t) now).bpm = 0 ∧
      (bpmAlarmBlock (phaseBlock t) now).stateTime = now ∧
      (bpmAlarmBlock (phaseBlock t) now).statePrevTime = now ∧
      (bpmAlarmBlock (phaseBlock t) now).bpmTime = now ∧
      (bpmAlarmBlock (phaseBlock t) now).bpmPrevTime = now := by
  by_cases hx : t.objT - EXHALE_HYST > t.tempThreshold ∧ t.state = INHALE
  · rw [phaseBlock_toExhale t hx.1 hx.2]
    rw [bpmAlarmBlock_transition_small _ now
      (by simp [hx.2, h8, EXHALE, INHALE]) (by simp [h5])]
    simp [h1, h3, h4, h6, h7]
  · by_cases hy : t.objT < t.tempThreshold ∧ t.state = EXHALE
    · rw [phaseBlock_toInhale t hy.1 hy.2]
      rw [bpmAlarmBlock_transition_small _ now
        (by simp [hy.2, h8, EXHALE, INHALE]) (by simp [h5])]
      simp [h1, h3, h4, h6, h7]
    · rw [phaseBlock_id t hx hy]
      rw [bpmAlarmBlock_steady t now h8.symm, h2]
      rw [if_neg (by simp [ALARM_DELAY_SEC])]
      exact ⟨h6, h7, h1, h2, h3, h4⟩

/-- C6: a cycle that finds no patient and a measurement at or above
`presenceThreshold + presenceHysteresis` performs the new-patient reset: the
exhale counter is zeroed by the reset, and at the end of the cycle the
patient is present with the patient output asserted, `bpm = 0`, the alarm
clear, and all four timestamps equal to the current quantized second. -/
theorem new_patient_reset (s : St) (m : ℚ) (now : ℤ)
    (hr : Reachable s) (hpat : s.patient = false)
    (hm : s.minTemp + PATIENT_HYST ≤ m) :
    (newPatientBlock (senseBlock s m) now).exhaleCtr = 0 ∧
      (loopCycle s m now).1.patient = true ∧
      (loopCycle s m now).1.patientPin = true ∧
      (loopCycle s m now).1.bpm = 0 ∧
      (loopCycle s m now).1.alarm = false ∧
      (loopCycle s m now).1.stateTime = now ∧
      (loopCycle s m now).1.statePrevTime = now ∧
      (loopCycle s m now).1.bpmTime = now ∧
      (loopCycle s m now).1.bpmPrevTime = now := by
  obtain ⟨hc, hpv, habs⟩ := inv_reachable s hr
  obtain ⟨halarm, hbpm⟩ := habs hpat
  have hnp := newPatientBlock_of_absent (senseBlock s m) now (by simpa using hpat)
  refine ⟨by rw [hnp], ?_⟩
  simp only [loopCycle]
  split_ifs with ha hb
  · have := ha.1
    simp only [senseBlock_objT, senseBlock_minTemp] at this
    exact absurd this (not_lt.mpr hm)
  · have := hb.2
    simp [hpat] at this
  · obtain ⟨a1, a2, a3, a4, a5, a6⟩ :=
      freshTimers_cycle_tail (newPatientBlock (senseBlock s m) now) now
        (by rw [hnp]) (by rw [hnp]) (by rw [hnp]) (by rw [hnp]) (by rw [hnp])
        (by simp [halarm]) (by simp [hbpm]) (by simp [hpv])
    have a7 : (newPatientBlock (senseBlock s m) now).patientPin = true := by
      rw [hnp]
    simp [a1, a2, a3, a4, a5, a6, a7]

/-- C6 witness: the reset on the fresh boot state at second 3 with a
reading of 85. -/
theorem new_patient_reset_witness :
    (newPatientBlock (senseBlock (initialState 0) 85) 3).exhaleCtr = 0 ∧
      (loopCycle (initialState 0) 85 3).1.patient = true ∧
      (loopCycle (initialState 0) 85 3).1.patientPin = true ∧
      (loopCycle (initialState 0) 85 3).1.bpm = 0 ∧
      (loopCycle (initialState 0) 85 3).1.alarm = false ∧
      (loopCycle (initialState 0) 85 3).1.stateTime = 3 ∧
      (loopCycle (initialState 0) 85 3).1.statePrevTime = 3 ∧
      (loopCycle (initialState 0) 85 3).1.bpmTime = 3 ∧
      (loopCycle (initialState 0) 85 3).1.bpmPrevTime = 3 :=
  new_patient_reset (initialState 0) 85 3 (Reachable.init 0)
    (by norm_num [initialState])
    (by norm_num [initialState, MIN_TEMP, PATIENT_HYST])

/-- C1 counterexample: from a boot at second 0, a patient appears at second
0, exhales at second 2, inhales at second 3 and exhales again at second 8 —
two consecutive Inhale→Exhale transitions at `t1 = 2` and `t2 = 8`, with the
cycle counter reaching 2 at the second one.  The firmware then reports
`bpm = 15`, not `60 / (t2 - t1) = 10`: its elapsed time runs from the
previous BPM computation (here the new-patient reset at second 0), not from
the previous Inhale→Exhale transition. -/
theorem bpm_formula_counterexample :
    runB.state = EXHALE ∧ runB.stateTime = 2 ∧
      runC.state = INHALE ∧
      (loopCycle runC 95 8).1.state = EXHALE ∧
      (loopCycle runC 95 8).1.stateTime = 8 ∧
      (phaseBlock (newPatientBlock (senseBlock runC 95) 8)).exhaleCtr = 2 ∧
      (loopCycle runC 95 8).1.bpm = 15 ∧
      (60 : ℚ) / ((8 : ℚ) - 2) = 10 ∧
      (loopCycle runC 95 8).1.bpm ≠ (60 : ℚ) / ((8 : ℚ) - 2) := by
  norm_num [runC, runB, runA, loopCycle, senseBlock, absentReset,
    newPatientBlock, phaseBlock, bpmAlarmBlock, calibBlock, displayBlock,
    aoBlock, initialState, MIN_TEMP, PATIENT_HYST, TEMP_THRESHOLD,
    EXHALE_HYST, ALARM_DELAY_SEC, EXHALE, INHALE, SENSOR_FAULT_CEILING]

/-- C1 (amended): on an Inhale→Exhale transition at quantized second `now`
at which the exhale counter reaches 2, the firmware computes
`bpm = 120 / (now - bpmPrevTime)` where `bpmPrevTime` is the time of the
previous BPM computation (or of the new-patient reset) — an interval that
spans the two breathing cycles counted since then — and then shifts
`bpmPrevTime` to `now` and resets the counter. -/
theorem bpm_two_cycle_formula (s : St) (m : ℚ) (now : ℤ)
    (hr : Reachable s) (hpat : s.patient = true)
    (hstay : ¬ m < s.minTemp - PATIENT_HYST)
    (hst : s.state = INHALE) (hcond : m - EXHALE_HYST > s.tempThreshold)
    (hctr : s.exhaleCtr = 1) (hnz : now - s.bpmPrevTime ≠ 0) :
    (loopCycle s m now).1.bpm = 120 / ((now : ℚ) - (s.bpmPrevTime : ℚ)) ∧
      (loopCycle s m now).1.bpmPrevTime = now ∧
      (loopCycle s m now).1.exhaleCtr = 0 ∧
      (loopCycle s m now).1.stateTime = now := by
  obtain ⟨hc, hpv, -⟩ := inv_reachable s hr
  have hnp := newPatientBlock_of_present (senseBlock s m) now (by simpa using hpat)
  have hph := phaseBlock_toExhale (senseBlock s m)
    (by simpa using hcond) (by simpa using hst)
  simp only [loopCycle]
  split_ifs with ha hb
  · exact absurd ha.2 (by simp [hpat])
  · exact absurd hb.1 (by simpa using hstay)
  · rw [hnp, hph]
    rw [bpmAlarmBlock_transition_compute _ now
      (by simp [hpv, hst, EXHALE, INHALE]) (by simp [hctr])
      (by simpa using hnz)]
    refine ⟨?_, by simp, by simp, by simp⟩
    simp only [aoBlock_bpm, displayBlock_bpm, calibBlock_bpm,
      senseBlock_bpmPrevTime]
    ring

/-- C1 (amended) witness: at the trace state `runC` (previous BPM reference
at second 0), the exhale at second 8 yields `bpm = 120 / 8 = 15`. -/
theorem bpm_two_cycle_formula_witness :
    (loopCycle runC 95 8).1.bpm =
        120 / (((8 : ℤ) : ℚ) - (runC.bpmPrevTime : ℚ)) ∧
      (loopCycle runC 95 8).1.bpmPrevTime = 8 ∧
      (loopCycle runC 95 8).1.exhaleCtr = 0 ∧
      (loopCycle runC 95 8).1.stateTime = 8 :=
  bpm_two_cycle_formula runC 95 8 runC_reachable runC_fields.1
    (by rw [runC_fields.2.2.2.2.2.1]; norm_num [PATIENT_HYST])
    runC_fields.2.1
    (by rw [runC_fields.2.2.2.2.2.2]; norm_num [EXHALE_HYST])
    runC_fields.2.2.2.1
    (by rw [runC_fields.2.2.2.2.1]; norm_num)

/-- C2 counterexample: with a fresh boot and a faulted reading of 600 °F,
the cycle sets the fault flag but still runs the full presence/phase logic —
it detects a "patient", raises the patient and exhale outputs, and flips the
phase to Exhale.  The core outputs are not suppressed while the fault is
set; only the OLED readout and the analog output react to it. -/
theorem sensor_fault_suppression_counterexample :
    (loopCycle (initialState 0) 600 0).1.sensorFail = true ∧
      (loopCycle (initialState 0) 600 0).1.patient = true ∧
      (loopCycle (initialState 0) 600 0).1.patientPin = true ∧
      (loopCycle (initialState 0) 600 0).1.state = EXHALE ∧
      (loopCycle (initialState 0) 600 0).1.exhalePin = true := by
  norm_num [loopCycle, senseBlock, absentReset, newPatientBlock, phaseBlock,
    bpmAlarmBlock, calibBlock, displayBlock, aoBlock, initialState,
    MIN_TEMP, PATIENT_HYST, TEMP_THRESHOLD, EXHALE_HYST, ALARM_DELAY_SEC,
    EXHALE, INHALE, SENSOR_FAULT_CEILING]

/-- C2 (amended): the fault flag exactly tracks, cycle by cycle, whether the
averaged measurement exceeds the 500-degree ceiling (so a plausible reading
clears it on the very next cycle), and while it is set the analog output is
forced to 0 — but the presence/phase/alarm/BPM processing and their outputs
are not suppressed. -/
theorem sensor_fault_flag (s : St) (m : ℚ) (now : ℤ) :
    ((loopCycle s m now).1.sensorFail = true ↔ m > SENSOR_FAULT_CEILING) ∧
      (m > SENSOR_FAULT_CEILING → (loopCycle s m now).1.tempDigital = 0) := by
  constructor
  · by_cases hc : m > SENSOR_FAULT_CEILING
    · simp only [loopCycle]
      split_ifs <;> simp [hc]
    · simp only [loopCycle]
      split_ifs <;> simp [hc]
  · intro hm
    simp only [loopCycle]
    split_ifs <;> exact aoBlock_fault _ (by simp [hm])

/-- C2 (amended) witness: the fault flag and the zeroed analog output at a
concrete faulted cycle. -/
theorem sensor_fault_flag_witness :
    ((loopCycle (initialState 0) 600 0).1.sensorFail = true ↔
      (600 : ℚ) > SENSOR_FAULT_CEILING) ∧
      (loopCycle (initialState 0) 600 0).1.tempDigital = 0 :=
  ⟨(sensor_fault_flag (initialState 0) 600 0).1,
   (sensor_fault_flag (initialState 0) 600 0).2
     (by norm_num [SENSOR_FAULT_CEILING])⟩

/-- C3 counterexample: in the trace, the patient's only transition so far
happened at second 2 (`runB.stateTime = 2`); at second 8, only 6 seconds
after that last transition (within the 7-second delay), a no-transition
cycle already raises the alarm — because the firmware times the alarm from
`statePrevTime`, the start of the previous phase, which is still 0 here. -/
theorem alarm_timer_counterexample :
    runB.stateTime = 2 ∧ runB.statePrevTime = 0 ∧ runB.alarm = false ∧
      runB.state = runB.prevState ∧
      (loopCycle runB 92 8).1.stateTime = 2 ∧
      (loopCycle runB 92 8).1.state = runB.state ∧
      (8 : ℤ) - runB.stateTime ≤ ALARM_DELAY_SEC ∧
      (loopCycle runB 92 8).1.alarm = true := by
  norm_num [runB, runA, loopCycle, senseBlock, absentReset, newPatientBlock,
    phaseBlock, bpmAlarmBlock, calibBlock, displayBlock, aoBlock,
    initialState, MIN_TEMP, PATIENT_HYST, TEMP_THRESHOLD, EXHALE_HYST,
    ALARM_DELAY_SEC, EXHALE, INHALE, SENSOR_FAULT_CEILING]

/-- C3 (amended): while a patient stays present, a cycle with no phase
transition ends with the alarm raised exactly when it already was, or when
`now - statePrevTime` exceeds `alarmDelaySeconds` — where `statePrevTime` is
the start time of the *previous* phase (the second-most-recent transition),
not the last transition; and the immediately following cycle in which a
transition occurs clears the alarm and shifts the phase timers. -/
theorem alarm_prev_phase_timer (s : St) (m : ℚ) (now : ℤ)
    (hr : Reachable s) (hpat : s.patient = true)
    (hstay : ¬ m < s.minTemp - PATIENT_HYST) :
    ((¬(m - EXHALE_HYST > s.tempThreshold ∧ s.state = INHALE) ∧
        ¬(m < s.tempThreshold ∧ s.state = EXHALE)) →
      (loopCycle s m now).1.alarm =
          (if now - s.statePrevTime > ALARM_DELAY_SEC then true else s.alarm) ∧
        (loopCycle s m now).1.stateTime = s.stateTime ∧
        (loopCycle s m now).1.statePrevTime = s.statePrevTime) ∧
    (((m - EXHALE_HYST > s.tempThreshold ∧ s.state = INHALE) ∨
        (m < s.tempThreshold ∧ s.state = EXHALE)) →
      (loopCycle s m now).1.alarm = false ∧
        (loopCycle s m now).1.statePrevTime = s.stateTime ∧
        (loopCycle s m now).1.stateTime = now) := by
  obtain ⟨hc, hpv, -⟩ := inv_reachable s hr
  have hnp := newPatientBlock_of_present (senseBlock s m) now (by simpa using hpat)
  constructor
  · rintro ⟨hx, hy⟩
    by_cases hd : now - s.statePrevTime > ALARM_DELAY_SEC
    · rw [if_pos hd]
      simp only [loopCycle]
      split_ifs with ha hb
      · exact absurd ha.2 (by simp [hpat])
      · exact absurd hb.1 (by simpa using hstay)
      · rw [hnp, phaseBlock_id (senseBlock s m)
          (by simpa using hx) (by simpa using hy)]
        rw [bpmAlarmBlock_steady _ now (by simp [hpv]),
          if_pos (by simpa using hd)]
        simp
    · rw [if_neg hd]
      simp only [loopCycle]
      split_ifs with ha hb
      · exact absurd ha.2 (by simp [hpat])
      · exact absurd hb.1 (by simpa using hstay)
      · rw [hnp, phaseBlock_id (senseBlock s m)
          (by simpa using hx) (by simpa using hy)]
        rw [bpmAlarmBlock_steady _ now (by simp [hpv]),
          if_neg (by simpa using hd)]
        simp
  · intro hx
    have ht : (phaseBlock (senseBlock s m)).state ≠
        (phaseBlock (senseBlock s m)).prevState := by
      rcases hx with hx | hx
      · rw [phaseBlock_toExhale (senseBlock s m)
          (by simpa using hx.1) (by simpa using hx.2)]
        simp [hpv, hx.2, EXHALE, INHALE]
      · rw [phaseBlock_toInhale (senseBlock s m)
          (by simpa using hx.1) (by simpa using hx.2)]
        simp [hpv, hx.2, EXHALE, INHALE]
    simp only [loopCycle]
    split_ifs with ha hb
    · exact absurd ha.2 (by simp [hpat])
    · exact absurd hb.1 (by simpa using hstay)
    · rw [hnp]
      obtain ⟨b1, b2, b3⟩ :=
        bpmAlarmBlock_transition_alarm (phaseBlock (senseBlock s m)) now ht
      simp [b1, b2, b3]

/-- C3 (amended) witness: at `runB` (present, exhaling, previous phase
started at second 0, last transition at second 2), the dead-zone reading 92
at second 8 is a no-transition cycle and raises the alarm because
`8 - 0 > 7`, and the inhale reading 85 at second 8 is a transition cycle
that ends with the alarm clear and the timers shifted. -/
theorem alarm_prev_phase_timer_witness :
    ((loopCycle runB 92 8).1.alarm =
        (if (8 : ℤ) - runB.statePrevTime > ALARM_DELAY_SEC then true
         else runB.alarm) ∧
      (loopCycle runB 92 8).1.stateTime = runB.stateTime ∧
      (loopCycle runB 92 8).1.statePrevTime = runB.statePrevTime) ∧
    ((loopCycle runB 85 8).1.alarm = false ∧
      (loopCycle runB 85 8).1.statePrevTime = runB.stateTime ∧
      (loopCycle runB 85 8).1.stateTime = 8) := by
  have hfacts : runB.patient = true ∧ runB.state = true ∧ runB.minTemp = 80 ∧
      runB.tempThreshold = 90 := by
    norm_num [runB, runA, loopCycle, senseBlock, absentReset,
      newPatientBlock, phaseBlock, bpmAlarmBlock, calibBlock, displayBlock,
      aoBlock, initialState, MIN_TEMP, PATIENT_HYST, TEMP_THRESHOLD,
      EXHALE_HYST, ALARM_DELAY_SEC, EXHALE, INHALE, SENSOR_FAULT_CEILING]
  constructor
  · exact (alarm_prev_phase_timer runB 92 8 runB_reachable hfacts.1
      (by rw [hfacts.2.2.1]; norm_num [PATIENT_HYST])).1
      ⟨by rw [hfacts.2.1]; simp [INHALE],
       by rw [hfacts.2.2.2]; norm_num⟩
  · exact (alarm_prev_phase_timer runB 85 8 runB_reachable hfacts.1
      (by rw [hfacts.2.2.1]; norm_num [PATIENT_HYST])).2
      (Or.inr ⟨by rw [hfacts.2.2.2]; norm_num, by simp [hfacts.2.1, EXHALE]⟩)

/-- Every cycle ends with the one-shot display flag consumed. -/
theorem loopCycle_thresholdSetDisp (s : St) (m : ℚ) (now : ℤ) :
    (loopCycle s m now).1.thresholdSetDisp = false := by
  simp only [loopCycle]
  split_ifs <;> simp

/-- A cycle that starts with no pending phase-threshold request and no
pending display flag emits no "threshold changed" event. -/
theorem loopCycle_no_threshold_event (s : St) (m : ℚ) (now : ℤ)
    (h1 : s.thresholdSet = false) (h2 : s.thresholdSetDisp = false) :
    (loopCycle s m now).2.thresholdChanged = false := by
  simp only [loopCycle]
  split_ifs with ha hb
  · have hskip := (calibBlock_skip (absentReset (senseBlock s m))
      (by simp [h1])).2.2
    simp [hskip, h2]
  · have hskip := (calibBlock_skip (absentReset (senseBlock s m))
      (by simp [h1])).2.2
    simp [hskip, h2]
  · have hskip := (calibBlock_skip
      (bpmAlarmBlock (phaseBlock (newPatientBlock (senseBlock s m) now)) now)
      (by simp [h1])).2.2
    simp [hskip, h2]

/-- C4: on a cycle with the phase-threshold request pending and an averaged
measurement of 91.7, the calibration consumer truncates the measurement to
91, installs it as `phaseThreshold`, clears the request flag, and the
display emits exactly one "threshold changed" event (this cycle shows it,
any later cycle without a fresh request shows none); asserting the trigger
again while the request is still pending changes nothing. -/
theorem calibration_capture (s : St) (now : ℤ) (hts : s.thresholdSet = true) :
    (loopCycle s (917/10) now).1.tempThreshold = 91 ∧
      (loopCycle s (917/10) now).1.thresholdSet = false ∧
      (loopCycle s (917/10) now).2.thresholdChanged = true ∧
      (∀ (m2 : ℚ) (now2 : ℤ),
        (loopCycle (loopCycle s (917/10) now).1 m2 now2).2.thresholdChanged
          = false) ∧
      setThreshold s = s := by
  have htrunc : ((cIntCast (917/10) : ℤ) : ℚ) = 91 := by
    norm_num [cIntCast]
  have h1st : (loopCycle s (917/10) now).1.tempThreshold = 91 ∧
      (loopCycle s (917/10) now).1.thresholdSet = false ∧
      (loopCycle s (917/10) now).2.thresholdChanged = true := by
    simp only [loopCycle]
    split_ifs with ha hb
    · obtain ⟨c1, c2, c3⟩ := calibBlock_consume
        (absentReset (senseBlock s (917/10))) (by simp [hts])
      exact ⟨by simp [c1, htrunc], by simp [c2], by simp [c3]⟩
    · obtain ⟨c1, c2, c3⟩ := calibBlock_consume
        (absentReset (senseBlock s (917/10))) (by simp [hts])
      exact ⟨by simp [c1, htrunc], by simp [c2], by simp [c3]⟩
    · obtain ⟨c1, c2, c3⟩ := calibBlock_consume
        (bpmAlarmBlock (phaseBlock (newPatientBlock (senseBlock s (917/10)) now)) now)
        (by simp [hts])
      exact ⟨by simp [c1, htrunc], by simp [c2], by simp [c3]⟩
  refine ⟨h1st.1, h1st.2.1, h1st.2.2,
    fun m2 now2 => loopCycle_no_threshold_event _ m2 now2 h1st.2.1
      (loopCycle_thresholdSetDisp s (917/10) now), ?_⟩
  unfold setThreshold
  rw [if_neg (by simp [hts])]

/-- A boot state with the phase-threshold request already pending. -/
def pendingBoot : St := setThreshold (initialState 0)

/-- C4 witness: the capture on a concrete pending state, the eventless
following cycle, and the no-op re-assertion. -/
theorem calibration_capture_witness :
    (loopCycle pendingBoot (917/10) 4).1.tempThreshold = 91 ∧
      (loopCycle pendingBoot (917/10) 4).1.thresholdSet = false ∧
      (loopCycle pendingBoot (917/10) 4).2.thresholdChanged = true ∧
      (loopCycle (loopCycle pendingBoot (917/10) 4).1 90 5).2.thresholdChanged
        = false ∧
      setThreshold pendingBoot = pendingBoot := by
  obtain ⟨w1, w2, w3, w4, w5⟩ := calibration_capture pendingBoot 4
    (by simp [pendingBoot, setThreshold, initialState])
  exact ⟨w1, w2, w3, w4 90 5, w5⟩

end BreathingDetector
